import Mathlib

/-!
Shallow embedding of the DOM helper library in `src/DOMAdvanced.js` (the
`DOMAdvanced` module: `isVisible`, `waitForSelector`, `scrollToSelector`,
`triggerEvent`, `observeSelector`, and the `config` entry point that mutates
the module-level `defaults`).

Host facilities are modelled as explicit oracles:
  * `matcher : Nat → Except String (Option Element)` gives the result of
    `document.querySelector(selector)` at the k-th presence check; `.error`
    models the native facility throwing on a syntactically invalid query
    (for a fixed selector string, validity does not change over time, so a
    rejecting matcher rejects at every check, in particular at the first).
  * `getStyle : Element → Style` models `window.getComputedStyle`.
  * `now : Nat → Nat` gives `Date.now()` at the k-th check; `start` is the
    `startTime` recorded on entry.
  * `rect : Nat → Int × Int` gives `(rect.top, rect.bottom)` of
    `element.getBoundingClientRect()` at the k-th scroll iteration, and
    `innerHeight` is `window.innerHeight`.
  * `dispatch : String → Element → Except String Unit` models constructing a
    `MouseEvent` and `element.dispatchEvent`; `.error` models a host-level
    throw, which the source catches.
Asynchrony is modelled with a `fuel` bound on the number of scheduler
resumptions; `none` as a run result means the promise has not settled within
the observed schedule.  The module-level mutable binding `defaults` is
threaded explicitly: each operation returns, next to its run, the value of
the `defaults` binding after the call.
-/

namespace DOMAdvanced

/-- Computed style of an element, as read by `window.getComputedStyle`. -/
structure Style where
  display : String
  visibility : String
  opacity : String
deriving DecidableEq

/-- A located DOM node; the core only reads its rendered offset geometry
(`offsetWidth`/`offsetHeight`); bounding-rect and style reads go through
the host oracles. -/
structure Element where
  offsetWidth : Nat
  offsetHeight : Nat
deriving DecidableEq

/-- `isVisible` from the source: null/undefined (modelled as `none`) is
invisible; otherwise the computed display must not be "none", visibility
not "hidden", opacity not the literal "0", and both rendered offsets must
be strictly positive. -/
def isVisible (getStyle : Element → Style) (element : Option Element) : Bool :=
  match element with
  | none => false
  | some e =>
    let style := getStyle e
    style.display != "none" &&
    style.visibility != "hidden" &&
    style.opacity != "0" &&
    decide (0 < e.offsetWidth) &&
    decide (0 < e.offsetHeight)

/-- The full set of tunables (the shape of the `defaults` object). -/
structure Config where
  timeout : Nat
  pollInterval : Nat
  scrollStep : Nat
  maxScrollAttempts : Nat
  visibleCheck : Bool
  throwErrors : Bool
deriving DecidableEq

/-- The module-level `defaults` object of the source. -/
def defaults : Config :=
  { timeout := 10000, pollInterval := 100, scrollStep := 100,
    maxScrollAttempts := 50, visibleCheck := true, throwErrors := false }

/-- A per-call `options` object: any subset of the recognized keys. -/
structure Overrides where
  timeout : Option Nat := none
  pollInterval : Option Nat := none
  scrollStep : Option Nat := none
  maxScrollAttempts : Option Nat := none
  visibleCheck : Option Bool := none
  throwErrors : Option Bool := none
deriving DecidableEq

/-- The spread merge `{ ...defaults, ...options }`: a key present in the
per-call overrides wins, key by key; the result is a fresh value. -/
def mergeConfig (d : Config) (o : Overrides) : Config :=
  { timeout := o.timeout.getD d.timeout,
    pollInterval := o.pollInterval.getD d.pollInterval,
    scrollStep := o.scrollStep.getD d.scrollStep,
    maxScrollAttempts := o.maxScrollAttempts.getD d.maxScrollAttempts,
    visibleCheck := o.visibleCheck.getD d.visibleCheck,
    throwErrors := o.throwErrors.getD d.throwErrors }

/-- View a full configuration as an overrides object with every key present
(used where the source passes an already-merged `config` object back into
`waitForSelector`, as `triggerEvent` does). -/
def Config.toOverrides (c : Config) : Overrides :=
  { timeout := some c.timeout, pollInterval := some c.pollInterval,
    scrollStep := some c.scrollStep, maxScrollAttempts := some c.maxScrollAttempts,
    visibleCheck := some c.visibleCheck, throwErrors := some c.throwErrors }

/-- The exported `config` entry point: `Object.assign(defaults, newConfig)`
permanently replaces the baseline with the key-by-key merge. -/
def configCall (d : Config) (o : Overrides) : Config :=
  mergeConfig d o

/-- Diagnostic message of the resolver's timeout exhaustion (text abstracted). -/
def timeoutMsg : String := "Timeout: selector no encontrado"

/-- Diagnostic message of the convergence engine's not-found path. -/
def scrollNotFoundMsg : String := "Elemento no encontrado"

/-- Diagnostic message of the convergence engine's attempt exhaustion. -/
def scrollExhaustedMsg : String := "No se pudo hacer scroll al elemento"

/-- Diagnostic message of the dispatch helper's not-found path. -/
def triggerNotFoundMsg : String := "No se pudo encontrar el elemento"

/-- Observable scheduler events of one `waitForSelector` run: the k-th
presence check, a `setTimeout` suspension of the given duration, and a
`console.warn` emission. -/
inductive WEvent where
  | check (k : Nat)
  | sleep (ms : Nat)
  | warn
deriving DecidableEq

/-- Decidable equality for settled promise payloads. -/
instance instDecEqExcept {ε α : Type} [DecidableEq ε] [DecidableEq α] :
    DecidableEq (Except ε α) := fun a b =>
  match a, b with
  | .error x, .error y =>
    if h : x = y then .isTrue (by rw [h])
    else .isFalse (fun hc => h (Except.error.inj hc))
  | .ok x, .ok y =>
    if h : x = y then .isTrue (by rw [h])
    else .isFalse (fun hc => h (Except.ok.inj hc))
  | .error _, .ok _ => .isFalse (fun hc => Except.noConfusion hc)
  | .ok _, .error _ => .isFalse (fun hc => Except.noConfusion hc)

/-- Outcome of one `waitForSelector` run: `none` means the promise has not
settled within the observed schedule; `some (.ok e)` is `resolve(e)`
(`e = none` is the `resolve(null)` sentinel); `some (.error m)` is a
rejection. -/
structure WaitRun where
  result : Option (Except String (Option Element))
  trace : List WEvent
deriving DecidableEq

/-- The `checkSelector` loop of `waitForSelector`.  On the k-th check the
native matcher either throws (`.error`) — on the very first check that throw
happens inside the promise executor and rejects the promise; on a later
check it would be an uncaught exception in a timer callback and the promise
never settles — or returns `found`.  A candidate is accepted iff it exists
and (`visibleCheck` is off or it is visible); otherwise, once
`Date.now() - startTime > timeout` the run exhausts (reject when
`throwErrors`, else warn and resolve null), and otherwise the loop suspends
for `pollInterval` and re-checks. -/
def waitLoop (matcher : Nat → Except String (Option Element))
    (getStyle : Element → Style) (visibleCheck throwErrors : Bool)
    (timeout pollInterval start : Nat) (now : Nat → Nat) (k : Nat) :
    Nat → WaitRun
  | 0 => ⟨none, []⟩
  | fuel + 1 =>
    match matcher k with
    | .error msg =>
      if k = 0 then ⟨some (.error msg), [WEvent.check k]⟩
      else ⟨none, [WEvent.check k]⟩
    | .ok found =>
      if found.any (fun el => !visibleCheck || isVisible getStyle (some el)) then
        ⟨some (.ok found), [WEvent.check k]⟩
      else if timeout < now k - start then
        if throwErrors then ⟨some (.error timeoutMsg), [WEvent.check k]⟩
        else ⟨some (.ok none), [WEvent.check k, WEvent.warn]⟩
      else
        let rest := waitLoop matcher getStyle visibleCheck throwErrors
          timeout pollInterval start now (k + 1) fuel
        ⟨rest.result, WEvent.check k :: WEvent.sleep pollInterval :: rest.trace⟩

/-- `waitForSelector`: merge the per-call overrides over the current
`defaults`, then run the check loop.  The second component is the value of
the module-level `defaults` binding after the call; the source never
assigns to `defaults` here (the spread reads it into a fresh object), so it
is returned unchanged. -/
def waitForSelectorRun (d : Config) (o : Overrides)
    (matcher : Nat → Except String (Option Element)) (getStyle : Element → Style)
    (start : Nat) (now : Nat → Nat) (fuel : Nat) : WaitRun × Config :=
  let config := mergeConfig d o
  (waitLoop matcher getStyle config.visibleCheck config.throwErrors
    config.timeout config.pollInterval start now 0 fuel, d)

/-- The polymorphic first argument of `scrollToSelector` / `triggerEvent`:
either a query string or a caller-supplied element handle (possibly
null/undefined, modelled as `none`). -/
inductive SelInput where
  | query (q : String)
  | elem (e : Option Element)
deriving DecidableEq

/-- Outcome of one `scrollToSelector` run: the settled result (payload as in
`WaitRun`), the list of issued `window.scrollBy` adjustments (signed `top`
values), and the number of `console.warn` emissions of this function
itself. -/
structure ScrollRun where
  result : Option (Except String (Option Element))
  adjustments : List Int
  warns : Nat
deriving DecidableEq

/-- The `scrollCheck` loop of `scrollToSelector`.  Each iteration increments
`attempts`, reads the element's bounding rect; if `top >= 0` and
`bottom <= innerHeight` it resolves with the element; else if
`attempts >= maxScrollAttempts` it exhausts (reject when `throwErrors`, else
warn and resolve the element anyway); else it issues one `scrollBy`
adjustment of `-scrollStep` when `top < 0` and `+scrollStep` otherwise, and
re-runs on the next animation frame. -/
def scrollLoop (rect : Nat → Int × Int) (innerHeight : Int) (scrollStep : Nat)
    (maxScrollAttempts : Nat) (throwErrors : Bool) (el : Element)
    (attempts k : Nat) : Nat → ScrollRun
  | 0 => ⟨none, [], 0⟩
  | fuel + 1 =>
    let a := attempts + 1
    if 0 ≤ (rect k).1 ∧ (rect k).2 ≤ innerHeight then
      ⟨some (.ok (some el)), [], 0⟩
    else if maxScrollAttempts ≤ a then
      if throwErrors then ⟨some (.error scrollExhaustedMsg), [], 0⟩
      else ⟨some (.ok (some el)), [], 1⟩
    else
      let adj : Int := if (rect k).1 < 0 then -(scrollStep : Int) else (scrollStep : Int)
      let rest := scrollLoop rect innerHeight scrollStep maxScrollAttempts
        throwErrors el a (k + 1) fuel
      ⟨rest.result, adj :: rest.adjustments, rest.warns⟩

/-- `scrollToSelector`: a string input is first resolved through
`waitForSelector` with the raw per-call options spread under
`visibleCheck: false`; a null resolution follows the not-found policy
(throw, or warn and return null) without entering the loop; a rejection of
the awaited resolver propagates; otherwise the scroll loop runs. -/
def scrollToSelectorRun (d : Config) (o : Overrides)
    (matcher : Nat → Except String (Option Element)) (getStyle : Element → Style)
    (start : Nat) (now : Nat → Nat) (rect : Nat → Int × Int) (innerHeight : Int)
    (input : SelInput) (fuel : Nat) : ScrollRun :=
  let config := mergeConfig d o
  let resolved : Option (Except String (Option Element)) :=
    match input with
    | .query _ =>
      (waitForSelectorRun d { o with visibleCheck := some false }
        matcher getStyle start now fuel).1.result
    | .elem e => some (.ok e)
  match resolved with
  | none => ⟨none, [], 0⟩
  | some (.error msg) => ⟨some (.error msg), [], 0⟩
  | some (.ok none) =>
    if config.throwErrors then ⟨some (.error scrollNotFoundMsg), [], 0⟩
    else ⟨some (.ok none), [], 1⟩
  | some (.ok (some el)) =>
    scrollLoop rect innerHeight config.scrollStep config.maxScrollAttempts
      config.throwErrors el 0 0 fuel

/-- `scrollToSelector` with the post-call value of the `defaults` binding
(unchanged: the function only reads `defaults` through the spread). -/
def scrollToSelector (d : Config) (o : Overrides)
    (matcher : Nat → Except String (Option Element)) (getStyle : Element → Style)
    (start : Nat) (now : Nat → Nat) (rect : Nat → Int × Int) (innerHeight : Int)
    (input : SelInput) (fuel : Nat) : ScrollRun × Config :=
  (scrollToSelectorRun d o matcher getStyle start now rect innerHeight input fuel, d)

/-- Outcome of one `triggerEvent` run: settled result (`Bool` success flag
or rejection), number of dispatch attempts, and number of `console.warn`
emissions of this function itself. -/
structure TriggerRun where
  result : Option (Except String Bool)
  dispatched : Nat
  warns : Nat
deriving DecidableEq

/-- `triggerEvent`: a string input is resolved through `waitForSelector`
with the fully merged config (so `visibleCheck` is respected); a null
element follows the not-found policy without dispatching; otherwise the
event is synthesized and dispatched, host-level throws being caught and
mapped through the same policy. -/
def triggerEventRun (d : Config) (o : Overrides)
    (matcher : Nat → Except String (Option Element)) (getStyle : Element → Style)
    (start : Nat) (now : Nat → Nat) (dispatch : String → Element → Except String Unit)
    (event : String) (input : SelInput) (fuel : Nat) : TriggerRun :=
  let config := mergeConfig d o
  let resolved : Option (Except String (Option Element)) :=
    match input with
    | .query _ =>
      (waitForSelectorRun d config.toOverrides matcher getStyle start now fuel).1.result
    | .elem e => some (.ok e)
  match resolved with
  | none => ⟨none, 0, 0⟩
  | some (.error msg) => ⟨some (.error msg), 0, 0⟩
  | some (.ok none) =>
    if config.throwErrors then ⟨some (.error triggerNotFoundMsg), 0, 0⟩
    else ⟨some (.ok false), 0, 1⟩
  | some (.ok (some el)) =>
    match dispatch event el with
    | .ok _ => ⟨some (.ok true), 1, 0⟩
    | .error msg =>
      if config.throwErrors then ⟨some (.error msg), 1, 0⟩
      else ⟨some (.ok false), 1, 1⟩

/-- `triggerEvent` with the post-call value of the `defaults` binding
(unchanged: the function only reads `defaults` through the spread). -/
def triggerEvent (d : Config) (o : Overrides)
    (matcher : Nat → Except String (Option Element)) (getStyle : Element → Style)
    (start : Nat) (now : Nat → Nat) (dispatch : String → Element → Except String Unit)
    (event : String) (input : SelInput) (fuel : Nat) : TriggerRun × Config :=
  (triggerEventRun d o matcher getStyle start now dispatch event input fuel, d)

/-- One interaction with an installed mutation watcher: either the host
delivers a batch of mutations (with `found` the `document.querySelector`
result at that point), or the holder of the handle calls
`observer.disconnect()`. -/
inductive WatchEvent where
  | batch (found : Option Element)
  | disconnect
deriving DecidableEq

/-- Whether a watch event is a disposal of the handle. -/
def WatchEvent.isDisconnect : WatchEvent → Bool
  | .disconnect => true
  | .batch _ => false

/-- The acceptance test of the observer callback, mirroring
`element && (!config.visibleCheck || isVisible(element))`. -/
def observerAccepts (getStyle : Element → Style) (visibleCheck : Bool) :
    Option Element → Bool
  | none => false
  | some el => !visibleCheck || isVisible getStyle (some el)

/-- Delivery semantics of the observer installed by `observeSelector` on
`document.body` (childList, subtree, attributes, characterData): while the
observer is connected, every delivered batch re-runs the callback body,
which fires the user callback whenever the acceptance test passes; after a
`disconnect` the host delivers no further batches to it.  Returns the list
of elements the user callback was invoked with, in order. -/
def observeRun (getStyle : Element → Style) (visibleCheck : Bool) :
    List WatchEvent → Bool → List Element
  | [], _ => []
  | WatchEvent.batch found :: rest, connected =>
    if connected && observerAccepts getStyle visibleCheck found then
      found.toList ++ observeRun getStyle visibleCheck rest connected
    else
      observeRun getStyle visibleCheck rest connected
  | WatchEvent.disconnect :: rest, _ =>
    observeRun getStyle visibleCheck rest false

/-- `observeSelector`: merge the per-call overrides over the defaults and
install the observer (connected from the start); the returned handle's
lifetime is the event list. -/
def observeSelectorRun (d : Config) (o : Overrides) (getStyle : Element → Style)
    (events : List WatchEvent) : List Element :=
  observeRun getStyle (mergeConfig d o).visibleCheck events true

/-- The host oracles a whole process session runs against. -/
structure Env where
  matcher : Nat → Except String (Option Element)
  getStyle : Element → Style
  start : Nat
  now : Nat → Nat
  rect : Nat → Int × Int
  innerHeight : Int
  dispatch : String → Element → Except String Unit
  fuel : Nat

/-- One observable call of the module within a process lifetime. -/
inductive ProcEvent where
  | waitCall (o : Overrides)
  | scrollCall (o : Overrides) (input : SelInput)
  | triggerCall (o : Overrides) (event : String) (input : SelInput)
  | setConfig (o : Overrides)

/-- Whether a process event is a call of the `config` mutation entry point. -/
def ProcEvent.isSetConfig : ProcEvent → Bool
  | .setConfig _ => true
  | _ => false

/-- How each call updates the module-level `defaults` binding: the three
operations return it unchanged, the `config` entry point replaces it with
the merge. -/
def stepDefaults (env : Env) (d : Config) : ProcEvent → Config
  | .waitCall o =>
    (waitForSelectorRun d o env.matcher env.getStyle env.start env.now env.fuel).2
  | .scrollCall o input =>
    (scrollToSelector d o env.matcher env.getStyle env.start env.now env.rect
      env.innerHeight input env.fuel).2
  | .triggerCall o event input =>
    (triggerEvent d o env.matcher env.getStyle env.start env.now env.dispatch
      event input env.fuel).2
  | .setConfig o => configCall d o

/-- The `defaults` baseline after a sequence of calls. -/
def runDefaults (env : Env) (d : Config) (tr : List ProcEvent) : Config :=
  List.foldl (stepDefaults env) d tr

/-- Whether a resolver trace event is a presence check. -/
def WEvent.isCheck : WEvent → Bool
  | .check _ => true
  | _ => false

/-- Number of presence checks in a resolver trace. -/
def countChecks (tr : List WEvent) : Nat :=
  tr.countP (fun e => WEvent.isCheck e)

/-- Every run of the check loop with at least one scheduler step starts
with the k-th presence check before anything else. -/
lemma waitLoop_succ_trace (matcher : Nat → Except String (Option Element))
    (gs : Element → Style) (vc te : Bool) (tmo pi start : Nat) (now : Nat → Nat)
    (k fuel : Nat) :
    ∃ rest, (waitLoop matcher gs vc te tmo pi start now k (fuel + 1)).trace
      = WEvent.check k :: rest := by
  cases hm : matcher k with
  | error msg =>
    by_cases hk : k = 0
    · subst hk; simp [waitLoop, hm]
    · simp [waitLoop, hm, hk]
  | ok found =>
    simp only [waitLoop, hm]
    split_ifs <;> exact ⟨_, rfl⟩

/-- Claim C4: the Resolver performs its first presence check before any
suspension (the first trace event of any scheduled run is check number 0,
never a sleep), and — in particular also when `timeoutMs = 0` — at least
one check is performed before the call can exhaust. -/
theorem waitForSelector_first_check_before_sleep (d : Config) (o : Overrides)
    (matcher : Nat → Except String (Option Element)) (gs : Element → Style)
    (start : Nat) (now : Nat → Nat) (fuel : Nat) :
    ((waitForSelectorRun d o matcher gs start now (fuel + 1)).1.trace.head?
        = some (WEvent.check 0))
    ∧ 1 ≤ countChecks (waitForSelectorRun d o matcher gs start now (fuel + 1)).1.trace := by
  obtain ⟨rest, hr⟩ := waitLoop_succ_trace matcher gs
    (mergeConfig d o).visibleCheck (mergeConfig d o).throwErrors
    (mergeConfig d o).timeout (mergeConfig d o).pollInterval start now 0 fuel
  have htr : (waitForSelectorRun d o matcher gs start now (fuel + 1)).1.trace
      = WEvent.check 0 :: rest := hr
  constructor
  · rw [htr]; rfl
  · rw [countChecks, htr]
    simp [List.countP_cons, WEvent.isCheck]

/-- Claim C5: for an element that exists, the visibility predicate holds
iff computed display is not "none", computed visibility is not "hidden",
computed opacity is not the literal "0", and both rendered offsets are
strictly positive — each condition necessary by the iff. -/
theorem isVisible_iff_four_conditions (gs : Element → Style) (e : Element) :
    isVisible gs (some e) = true ↔
      ((gs e).display ≠ "none" ∧ (gs e).visibility ≠ "hidden" ∧
       (gs e).opacity ≠ "0" ∧ 0 < e.offsetWidth ∧ 0 < e.offsetHeight) := by
  simp [isVisible, Bool.and_eq_true, bne_iff_ne, and_assoc]

/-- Claim C9: applied to an absent (null/undefined) element, the visibility
predicate returns false for every possible computed-style accessor — it is
total on absent elements and never consults style or geometry there. -/
theorem isVisible_null_false (gs : Element → Style) :
    isVisible gs none = false := rfl

/-- After a disconnect the observer receives nothing: a disconnected run
fires no callback at all. -/
lemma observeRun_disconnected (gs : Element → Style) (vc : Bool) :
    ∀ tr, observeRun gs vc tr false = [] := by
  intro tr
  induction tr with
  | nil => rfl
  | cons e rest ih =>
    cases e with
    | batch f => simpa [observeRun] using ih
    | disconnect => simpa [observeRun] using ih

/-- A connected run fires exactly once per delivered batch whose
querySelector result passes the acceptance test, up to the first
disconnect; nothing after the disconnect fires. -/
lemma observeRun_characterization (gs : Element → Style) (vc : Bool) :
    ∀ tr, observeRun gs vc tr true =
      (tr.takeWhile (fun e => !e.isDisconnect)).filterMap
        (fun e =>
          match e with
          | WatchEvent.batch found =>
            if observerAccepts gs vc found then found else none
          | WatchEvent.disconnect => none) := by
  intro tr
  induction tr with
  | nil => rfl
  | cons e rest ih =>
    cases e with
    | disconnect =>
      simp [observeRun, WatchEvent.isDisconnect, observeRun_disconnected]
    | batch f =>
      cases f with
      | none =>
        simpa [observeRun, observerAccepts, WatchEvent.isDisconnect] using ih
      | some el =>
        by_cases h : observerAccepts gs vc (some el) = true
        · simpa [observeRun, WatchEvent.isDisconnect, h] using ih
        · rw [Bool.not_eq_true] at h
          simpa [observeRun, WatchEvent.isDisconnect, h] using ih

/-- Claim C1 (amended): an installed watcher invokes the callback once in
every delivered mutation batch in which a matching (and, when
`visibleCheck`, visible) element is present — possibly many times per
activation, since the observer does not self-disarm — and after the handle
is disposed no subsequent mutation batch invokes the callback. -/
theorem observeSelector_fires_per_matching_batch (d : Config) (o : Overrides)
    (gs : Element → Style) (events : List WatchEvent) :
    observeSelectorRun d o gs events =
      (events.takeWhile (fun e => !e.isDisconnect)).filterMap
        (fun e =>
          match e with
          | WatchEvent.batch found =>
            if observerAccepts gs (mergeConfig d o).visibleCheck found then found else none
          | WatchEvent.disconnect => none) :=
  observeRun_characterization gs (mergeConfig d o).visibleCheck events

/-- Claim C1 (counterexample): with the default configuration and a
visible matching element present across two mutation batches — one
activation, no disposal, no re-arm — the callback is invoked twice, not
exactly once per activation. -/
theorem observeSelector_two_batches_two_fires :
    (observeSelectorRun defaults ⟨none, none, none, none, none, none⟩
        (fun _ => ⟨"block", "visible", "1"⟩)
        [WatchEvent.batch (some ⟨5, 5⟩), WatchEvent.batch (some ⟨5, 5⟩)]).length = 2
    ∧ ¬((observeSelectorRun defaults ⟨none, none, none, none, none, none⟩
        (fun _ => ⟨"block", "visible", "1"⟩)
        [WatchEvent.batch (some ⟨5, 5⟩), WatchEvent.batch (some ⟨5, 5⟩)]).length ≤ 1) := by
  decide

/-- The scroll loop can issue strictly fewer adjustments than it has
attempts left: each adjustment consumes one attempt, and the exhaustion
check precedes the adjustment. -/
lemma scrollLoop_adjustments_le (rect : Nat → Int × Int) (H : Int)
    (step maxA : Nat) (te : Bool) (el : Element) :
    ∀ fuel attempts k,
      (scrollLoop rect H step maxA te el attempts k fuel).adjustments.length
        ≤ maxA - (attempts + 1) := by
  intro fuel
  induction fuel with
  | zero => intro a k; simp [scrollLoop]
  | succ n ih =>
    intro a k
    simp only [scrollLoop]
    split_ifs <;> (have hrec := ih (a + 1) (k + 1); simp <;> omega)

/-- Under a bounding box that never satisfies containment, the loop runs
out its attempt budget: it performs `maxA - attempts` further checks, issues
one adjustment in each but the last, and exhausts there. -/
lemma scrollLoop_never (rect : Nat → Int × Int) (H : Int) (step maxA : Nat)
    (te : Bool) (el : Element)
    (h : ∀ k, ¬(0 ≤ (rect k).1 ∧ (rect k).2 ≤ H)) :
    ∀ fuel attempts k, attempts < maxA → maxA - attempts ≤ fuel →
      (scrollLoop rect H step maxA te el attempts k fuel).result
          = some (if te then Except.error scrollExhaustedMsg else Except.ok (some el))
        ∧ (scrollLoop rect H step maxA te el attempts k fuel).adjustments.length
          = maxA - attempts - 1
        ∧ (scrollLoop rect H step maxA te el attempts k fuel).warns
          = (if te then 0 else 1) := by
  intro fuel
  induction fuel with
  | zero => intro a k h1 h2; omega
  | succ n ih =>
    intro a k h1 h2
    simp only [scrollLoop, if_neg (h k)]
    by_cases hm : maxA ≤ a + 1
    · rw [if_pos hm]
      cases te <;> simp <;> omega
    · rw [if_neg hm]
      obtain ⟨r1, r2, r3⟩ := ih (a + 1) (k + 1) (by omega) (by omega)
      refine ⟨r1, ?_, r3⟩
      simp only [List.length_cons, r2]
      omega

/-- Claim C2 (amended): the Convergence Engine issues at most
`maxScrollAttempts` scroll adjustments before concluding (in fact at most
`maxScrollAttempts - 1`: the final attempt is a measurement without an
adjustment); in the concrete case `maxScrollAttempts = 5`,
`throwOnFailure = false`, and a bounding box that never satisfies
containment, it issues exactly 4 adjustments and then returns the element
anyway (partial success) with one warning diagnostic, not a failure. -/
theorem scrollToSelector_adjustment_budget :
    (∀ (d : Config) (o : Overrides) (matcher : Nat → Except String (Option Element))
        (gs : Element → Style) (start : Nat) (now : Nat → Nat)
        (rect : Nat → Int × Int) (H : Int) (input : SelInput) (fuel : Nat),
      (scrollToSelectorRun d o matcher gs start now rect H input fuel).adjustments.length
        ≤ (mergeConfig d o).maxScrollAttempts)
    ∧ (∀ (el : Element) (rect : Nat → Int × Int) (H : Int) (step fuel : Nat),
        (∀ k, ¬(0 ≤ (rect k).1 ∧ (rect k).2 ≤ H)) →
        (scrollToSelectorRun defaults ⟨none, none, some step, some 5, none, some false⟩
            (fun _ => Except.ok none) (fun _ => ⟨"block", "visible", "1"⟩) 0 (fun _ => 0)
            rect H (SelInput.elem (some el)) (fuel + 5)).adjustments.length = 4
        ∧ (scrollToSelectorRun defaults ⟨none, none, some step, some 5, none, some false⟩
            (fun _ => Except.ok none) (fun _ => ⟨"block", "visible", "1"⟩) 0 (fun _ => 0)
            rect H (SelInput.elem (some el)) (fuel + 5)).result
          = some (Except.ok (some el))
        ∧ (scrollToSelectorRun defaults ⟨none, none, some step, some 5, none, some false⟩
            (fun _ => Except.ok none) (fun _ => ⟨"block", "visible", "1"⟩) 0 (fun _ => 0)
            rect H (SelInput.elem (some el)) (fuel + 5)).warns = 1) := by
  constructor
  · intro d o matcher gs start now rect H input fuel
    cases input with
    | query q =>
      simp only [scrollToSelectorRun]
      cases hr : (waitForSelectorRun d { o with visibleCheck := some false }
          matcher gs start now fuel).1.result with
      | none => simp
      | some r =>
        cases r with
        | error msg => simp
        | ok eo =>
          cases eo with
          | none => split_ifs <;> simp
          | some el =>
            exact le_trans
              (scrollLoop_adjustments_le rect H (mergeConfig d o).scrollStep
                (mergeConfig d o).maxScrollAttempts (mergeConfig d o).throwErrors el fuel 0 0)
              (Nat.sub_le _ _)
    | elem e =>
      cases e with
      | none =>
        simp only [scrollToSelectorRun]
        split_ifs <;> simp
      | some el =>
        exact le_trans
          (scrollLoop_adjustments_le rect H (mergeConfig d o).scrollStep
            (mergeConfig d o).maxScrollAttempts (mergeConfig d o).throwErrors el fuel 0 0)
          (Nat.sub_le _ _)
  · intro el rect H step fuel h
    obtain ⟨r1, r2, r3⟩ := scrollLoop_never rect H step 5 false el h (fuel + 5) 0 0
      (by omega) (by omega)
    exact ⟨r2, r1, r3⟩

/-- Claim C2 (witness): a concrete sticky layout (bounding box fixed at
(700, 800), viewport height 600) with `maxScrollAttempts = 5` and
`throwOnFailure = false` issues exactly 4 adjustments and returns the
element with one warning. -/
theorem scrollToSelector_adjustment_budget_witness :
    (scrollToSelectorRun defaults ⟨none, none, some 100, some 5, none, some false⟩
        (fun _ => Except.ok none) (fun _ => ⟨"block", "visible", "1"⟩) 0 (fun _ => 0)
        (fun _ => ((700 : Int), (800 : Int))) 600
        (SelInput.elem (some ⟨3, 3⟩)) (0 + 5)).adjustments.length = 4
    ∧ (scrollToSelectorRun defaults ⟨none, none, some 100, some 5, none, some false⟩
        (fun _ => Except.ok none) (fun _ => ⟨"block", "visible", "1"⟩) 0 (fun _ => 0)
        (fun _ => ((700 : Int), (800 : Int))) 600
        (SelInput.elem (some ⟨3, 3⟩)) (0 + 5)).result = some (Except.ok (some ⟨3, 3⟩))
    ∧ (scrollToSelectorRun defaults ⟨none, none, some 100, some 5, none, some false⟩
        (fun _ => Except.ok none) (fun _ => ⟨"block", "visible", "1"⟩) 0 (fun _ => 0)
        (fun _ => ((700 : Int), (800 : Int))) 600
        (SelInput.elem (some ⟨3, 3⟩)) (0 + 5)).warns = 1 :=
  scrollToSelector_adjustment_budget.2 ⟨3, 3⟩ (fun _ => ((700 : Int), (800 : Int))) 600 100 0
    (by intro k; show ¬(0 ≤ (700 : Int) ∧ (800 : Int) ≤ 600); decide)

/-- Claim C2 (counterexample): in the `maxScrollAttempts = 5`,
`throwOnFailure = false` scenario with never-satisfiable containment the
engine concludes with the element and a warning after exactly 4 scroll
adjustments — not the 5 the claim states. -/
theorem scrollToSelector_five_attempts_four_adjustments :
    (scrollToSelectorRun defaults ⟨none, none, none, some 5, none, some false⟩
        (fun _ => Except.ok none) (fun _ => ⟨"block", "visible", "1"⟩) 0 (fun _ => 0)
        (fun _ => ((700 : Int), (800 : Int))) 600
        (SelInput.elem (some ⟨3, 3⟩)) 10).adjustments.length = 4
    ∧ ¬((scrollToSelectorRun defaults ⟨none, none, none, some 5, none, some false⟩
        (fun _ => Except.ok none) (fun _ => ⟨"block", "visible", "1"⟩) 0 (fun _ => 0)
        (fun _ => ((700 : Int), (800 : Int))) 600
        (SelInput.elem (some ⟨3, 3⟩)) 10).adjustments.length = 5)
    ∧ (scrollToSelectorRun defaults ⟨none, none, none, some 5, none, some false⟩
        (fun _ => Except.ok none) (fun _ => ⟨"block", "visible", "1"⟩) 0 (fun _ => 0)
        (fun _ => ((700 : Int), (800 : Int))) 600
        (SelInput.elem (some ⟨3, 3⟩)) 10).result = some (Except.ok (some ⟨3, 3⟩))
    ∧ (scrollToSelectorRun defaults ⟨none, none, none, some 5, none, some false⟩
        (fun _ => Except.ok none) (fun _ => ⟨"block", "visible", "1"⟩) 0 (fun _ => 0)
        (fun _ => ((700 : Int), (800 : Int))) 600
        (SelInput.elem (some ⟨3, 3⟩)) 10).warns = 1 := by
  decide

/-- Claim C3 (amended): a query rejected by the native matching facility is
not treated as "no match": the rejection raised by the very first presence
check propagates out of `waitForSelector` — and out of `scrollToSelector`
and `triggerEvent` when they are given a query — as an error, regardless of
`throwOnFailure`. -/
theorem waitForSelector_invalid_query_propagates (d : Config) (o : Overrides)
    (matcher : Nat → Except String (Option Element)) (gs : Element → Style)
    (start : Nat) (now : Nat → Nat) (rect : Nat → Int × Int) (H : Int)
    (dispatch : String → Element → Except String Unit) (event q : String)
    (fuel : Nat) (msg : String) (h : matcher 0 = Except.error msg) :
    (waitForSelectorRun d o matcher gs start now (fuel + 1)).1.result
        = some (Except.error msg)
    ∧ scrollToSelectorRun d o matcher gs start now rect H
        (SelInput.query q) (fuel + 1) = ⟨some (Except.error msg), [], 0⟩
    ∧ (triggerEventRun d o matcher gs start now dispatch event
        (SelInput.query q) (fuel + 1)).result = some (Except.error msg) := by
  have hw : ∀ o' : Overrides,
      (waitForSelectorRun d o' matcher gs start now (fuel + 1)).1.result
        = some (Except.error msg) := by
    intro o'
    simp [waitForSelectorRun, waitLoop, h]
  refine ⟨hw o, ?_, ?_⟩
  · simp only [scrollToSelectorRun, hw { o with visibleCheck := some false }]
  · simp only [triggerEventRun, hw (mergeConfig d o).toOverrides]

/-- Claim C3 (witness): concrete instantiation of the propagation theorem
at a matcher that rejects the query. -/
theorem waitForSelector_invalid_query_propagates_witness :
    (waitForSelectorRun defaults ⟨none, none, none, none, none, some false⟩
        (fun _ => Except.error "SyntaxError") (fun _ => ⟨"block", "visible", "1"⟩)
        0 (fun _ => 0) (2 + 1)).1.result = some (Except.error "SyntaxError")
    ∧ scrollToSelectorRun defaults ⟨none, none, none, none, none, some false⟩
        (fun _ => Except.error "SyntaxError") (fun _ => ⟨"block", "visible", "1"⟩)
        0 (fun _ => 0) (fun _ => ((0 : Int), (0 : Int))) 600
        (SelInput.query "a[") (2 + 1) = ⟨some (Except.error "SyntaxError"), [], 0⟩
    ∧ (triggerEventRun defaults ⟨none, none, none, none, none, some false⟩
        (fun _ => Except.error "SyntaxError") (fun _ => ⟨"block", "visible", "1"⟩)
        0 (fun _ => 0) (fun _ _ => Except.ok ()) "click"
        (SelInput.query "a[") (2 + 1)).result = some (Except.error "SyntaxError") :=
  waitForSelector_invalid_query_propagates defaults ⟨none, none, none, none, none, some false⟩
    (fun _ => Except.error "SyntaxError") (fun _ => ⟨"block", "visible", "1"⟩)
    0 (fun _ => 0) (fun _ => ((0 : Int), (0 : Int))) 600 (fun _ _ => Except.ok ())
    "click" "a[" 2 "SyntaxError" rfl

/-- Claim C3 (counterexample): with `throwOnFailure = false`, a query whose
matcher throws does not resolve to the "no match" sentinel (null); the
promise rejects with the matcher's error. -/
theorem invalid_query_not_treated_as_no_match :
    (waitForSelectorRun defaults ⟨none, none, none, none, none, some false⟩
        (fun _ => Except.error "SyntaxError") (fun _ => ⟨"block", "visible", "1"⟩)
        0 (fun _ => 0) 3).1.result = some (Except.error "SyntaxError")
    ∧ ¬((waitForSelectorRun defaults ⟨none, none, none, none, none, some false⟩
        (fun _ => Except.error "SyntaxError") (fun _ => ⟨"block", "visible", "1"⟩)
        0 (fun _ => 0) 3).1.result = some (Except.ok none)) := by
  decide

/-- Claim C6: a query input to the Convergence Engine is resolved with
`visibleCheck` forced to false — the run is invariant under the caller's
`visibleCheck` setting — and a failed resolution propagates the Resolver's
policy without entering the scroll loop: a rejection of the awaited
resolver rejects the call with no adjustments, and a null resolution throws
when `throwOnFailure` and otherwise warns and returns the not-found
sentinel, again with no adjustments. -/
theorem scrollToSelector_query_resolution_policy (d : Config) (o : Overrides)
    (matcher : Nat → Except String (Option Element)) (gs : Element → Style)
    (start : Nat) (now : Nat → Nat) (rect : Nat → Int × Int) (H : Int)
    (q : String) (fuel : Nat) :
    (∀ v, scrollToSelectorRun d { o with visibleCheck := v } matcher gs start now
        rect H (SelInput.query q) fuel
      = scrollToSelectorRun d { o with visibleCheck := some false } matcher gs start now
        rect H (SelInput.query q) fuel)
    ∧ (∀ msg, (waitForSelectorRun d { o with visibleCheck := some false }
          matcher gs start now fuel).1.result = some (Except.error msg) →
        scrollToSelectorRun d o matcher gs start now rect H (SelInput.query q) fuel
          = ⟨some (Except.error msg), [], 0⟩)
    ∧ ((waitForSelectorRun d { o with visibleCheck := some false }
          matcher gs start now fuel).1.result = some (Except.ok none) →
        scrollToSelectorRun d o matcher gs start now rect H (SelInput.query q) fuel
          = (if (mergeConfig d o).throwErrors
             then ⟨some (Except.error scrollNotFoundMsg), [], 0⟩
             else ⟨some (Except.ok none), [], 1⟩)) := by
  refine ⟨fun v => rfl, fun msg h => ?_, fun h => ?_⟩
  · simp only [scrollToSelectorRun, h]
  · simp only [scrollToSelectorRun, h]

/-- Claim C6 (witness): the rejection branch at a matcher that throws, and
the sentinel branch at a never-matching document with `timeoutMs = 0` and
`throwOnFailure = false`. -/
theorem scrollToSelector_query_resolution_policy_witness :
    (scrollToSelectorRun defaults ⟨none, none, none, none, some true, some false⟩
        (fun _ => Except.error "SyntaxError") (fun _ => ⟨"block", "visible", "1"⟩)
        0 (fun _ => 0) (fun _ => ((0 : Int), (0 : Int))) 600
        (SelInput.query "a[") 3 = ⟨some (Except.error "SyntaxError"), [], 0⟩)
    ∧ (scrollToSelectorRun defaults ⟨some 0, none, none, none, some true, some false⟩
        (fun _ => Except.ok none) (fun _ => ⟨"block", "visible", "1"⟩)
        0 (fun k => k * 1000) (fun _ => ((0 : Int), (0 : Int))) 600
        (SelInput.query "div") 3
      = (if (mergeConfig defaults ⟨some 0, none, none, none, some true, some false⟩).throwErrors
         then ⟨some (Except.error scrollNotFoundMsg), [], 0⟩
         else ⟨some (Except.ok none), [], 1⟩)) :=
  ⟨(scrollToSelector_query_resolution_policy defaults
      ⟨none, none, none, none, some true, some false⟩
      (fun _ => Except.error "SyntaxError") (fun _ => ⟨"block", "visible", "1"⟩)
      0 (fun _ => 0) (fun _ => ((0 : Int), (0 : Int))) 600 "a[" 3).2.1
      "SyntaxError" (by decide),
   (scrollToSelector_query_resolution_policy defaults
      ⟨some 0, none, none, none, some true, some false⟩
      (fun _ => Except.ok none) (fun _ => ⟨"block", "visible", "1"⟩)
      0 (fun k => k * 1000) (fun _ => ((0 : Int), (0 : Int))) 600 "div" 3).2.2
      (by decide)⟩

/-- The three operations never assign to the `defaults` binding. -/
lemma stepDefaults_not_set (env : Env) (d : Config) (e : ProcEvent)
    (h : e.isSetConfig = false) : stepDefaults env d e = d := by
  cases e with
  | waitCall o => rfl
  | scrollCall o input => rfl
  | triggerCall o event input => rfl
  | setConfig o => simp [ProcEvent.isSetConfig] at h

/-- A sequence of ordinary operation calls leaves the baseline unchanged. -/
lemma runDefaults_no_set (env : Env) :
    ∀ (tr : List ProcEvent) (c : Config),
      (∀ e ∈ tr, e.isSetConfig = false) → runDefaults env c tr = c := by
  intro tr
  induction tr with
  | nil => intro c h; rfl
  | cons e rest ih =>
    intro c h
    have h1 : e.isSetConfig = false := h e (List.mem_cons_self e rest)
    have h2 : ∀ x ∈ rest, x.isSetConfig = false :=
      fun x hx => h x (List.mem_cons_of_mem e hx)
    simp only [runDefaults, List.foldl_cons] at ih ⊢
    rw [stepDefaults_not_set env c e h1]
    exact ih c h2

/-- Claim C7: the effective Configuration of a call is the key-by-key merge
of the process-wide default set with the per-call overrides where the
override wins, and a call of the process-wide `config` entry point
permanently merges its partial override into the baseline: after it, and
after any number of ordinary operation calls, the baseline is the merged
value. -/
theorem config_merge_override_wins_and_permanent (d : Config) (o : Overrides) :
    ((∀ x, o.timeout = some x → (mergeConfig d o).timeout = x)
       ∧ (o.timeout = none → (mergeConfig d o).timeout = d.timeout))
    ∧ ((∀ x, o.pollInterval = some x → (mergeConfig d o).pollInterval = x)
       ∧ (o.pollInterval = none → (mergeConfig d o).pollInterval = d.pollInterval))
    ∧ ((∀ x, o.scrollStep = some x → (mergeConfig d o).scrollStep = x)
       ∧ (o.scrollStep = none → (mergeConfig d o).scrollStep = d.scrollStep))
    ∧ ((∀ x, o.maxScrollAttempts = some x → (mergeConfig d o).maxScrollAttempts = x)
       ∧ (o.maxScrollAttempts = none → (mergeConfig d o).maxScrollAttempts = d.maxScrollAttempts))
    ∧ ((∀ x, o.visibleCheck = some x → (mergeConfig d o).visibleCheck = x)
       ∧ (o.visibleCheck = none → (mergeConfig d o).visibleCheck = d.visibleCheck))
    ∧ ((∀ x, o.throwErrors = some x → (mergeConfig d o).throwErrors = x)
       ∧ (o.throwErrors = none → (mergeConfig d o).throwErrors = d.throwErrors))
    ∧ (∀ (env : Env) (tr : List ProcEvent),
        (∀ e ∈ tr, e.isSetConfig = false) →
        runDefaults env d (ProcEvent.setConfig o :: tr) = mergeConfig d o) := by
  refine ⟨⟨?_, ?_⟩, ⟨?_, ?_⟩, ⟨?_, ?_⟩, ⟨?_, ?_⟩, ⟨?_, ?_⟩, ⟨?_, ?_⟩, ?_⟩
  · intro x hx; simp [mergeConfig, hx]
  · intro hx; simp [mergeConfig, hx]
  · intro x hx; simp [mergeConfig, hx]
  · intro hx; simp [mergeConfig, hx]
  · intro x hx; simp [mergeConfig, hx]
  · intro hx; simp [mergeConfig, hx]
  · intro x hx; simp [mergeConfig, hx]
  · intro hx; simp [mergeConfig, hx]
  · intro x hx; simp [mergeConfig, hx]
  · intro hx; simp [mergeConfig, hx]
  · intro x hx; simp [mergeConfig, hx]
  · intro hx; simp [mergeConfig, hx]
  · intro env tr h
    simp only [runDefaults, List.foldl_cons]
    have hset : stepDefaults env d (ProcEvent.setConfig o) = mergeConfig d o := rfl
    rw [hset]
    have hrest := runDefaults_no_set env tr (mergeConfig d o) h
    simpa [runDefaults] using hrest

/-- Claim C7 (witness): a concrete override set merged over the shipped
defaults, and a concrete session in which the `config` entry point is
followed by an ordinary call. -/
theorem config_merge_override_wins_and_permanent_witness :
    (mergeConfig defaults ⟨some 5000, none, none, none, none, some true⟩).timeout = 5000
    ∧ (mergeConfig defaults ⟨some 5000, none, none, none, none, some true⟩).pollInterval = 100
    ∧ runDefaults
        ⟨fun _ => Except.ok none, fun _ => ⟨"block", "visible", "1"⟩, 0, fun _ => 0,
          fun _ => ((0 : Int), (0 : Int)), 600, fun _ _ => Except.ok (), 1⟩
        defaults
        [ProcEvent.setConfig ⟨some 5000, none, none, none, none, some true⟩,
         ProcEvent.waitCall ⟨none, none, none, none, none, none⟩]
      = mergeConfig defaults ⟨some 5000, none, none, none, none, some true⟩ := by
  obtain ⟨⟨h1, _⟩, ⟨_, h2⟩, _, _, _, _, hperm⟩ :=
    config_merge_override_wins_and_permanent defaults
      ⟨some 5000, none, none, none, none, some true⟩
  refine ⟨h1 5000 rfl, h2 rfl, ?_⟩
  exact hperm
    ⟨fun _ => Except.ok none, fun _ => ⟨"block", "visible", "1"⟩, 0, fun _ => 0,
      fun _ => ((0 : Int), (0 : Int)), 600, fun _ _ => Except.ok (), 1⟩
    [ProcEvent.waitCall ⟨none, none, none, none, none, none⟩]
    (by intro e he; rw [List.mem_singleton] at he; subst he; rfl)

/-- Claim C8: a call of `waitForSelector`, `scrollToSelector` or
`triggerEvent` with a per-call options object leaves the process-wide
default baseline unchanged: each operation merges the overrides into a
fresh configuration and never writes back into `defaults`. -/
theorem calls_leave_defaults_unchanged (d : Config) (o : Overrides)
    (matcher : Nat → Except String (Option Element)) (gs : Element → Style)
    (start : Nat) (now : Nat → Nat) (rect : Nat → Int × Int) (H : Int)
    (dispatch : String → Element → Except String Unit) (event : String)
    (input : SelInput) (fuel : Nat) :
    (waitForSelectorRun d o matcher gs start now fuel).2 = d
    ∧ (scrollToSelector d o matcher gs start now rect H input fuel).2 = d
    ∧ (triggerEvent d o matcher gs start now dispatch event input fuel).2 = d :=
  ⟨rfl, rfl, rfl⟩

/-- Claim C10: given a null/absent element handle (not a query string),
`scrollToSelector` and `triggerEvent` follow the not-found policy directly:
with `throwOnFailure` they reject, otherwise they warn once and return
their sentinel (null, respectively false), with no scroll adjustment and no
dispatch attempt in either case. -/
theorem null_element_not_found_policy (d : Config) (o : Overrides)
    (matcher : Nat → Except String (Option Element)) (gs : Element → Style)
    (start : Nat) (now : Nat → Nat) (rect : Nat → Int × Int) (H : Int)
    (dispatch : String → Element → Except String Unit) (event : String)
    (fuel : Nat) :
    scrollToSelectorRun d o matcher gs start now rect H (SelInput.elem none) fuel
      = (if (mergeConfig d o).throwErrors
         then ⟨some (Except.error scrollNotFoundMsg), [], 0⟩
         else ⟨some (Except.ok none), [], 1⟩)
    ∧ triggerEventRun d o matcher gs start now dispatch event (SelInput.elem none) fuel
      = (if (mergeConfig d o).throwErrors
         then ⟨some (Except.error triggerNotFoundMsg), 0, 0⟩
         else ⟨some (Except.ok false), 0, 1⟩) :=
  ⟨rfl, rfl⟩

end DOMAdvanced
